import Mathlib

/-!
Shallow embedding of the bottle-factory analyzer core
(`src/backend/app/main.py`) for verification of the specification's claims.

Conventions of the embedding:
* Python floats are modelled as rationals (`ℚ`); every constant in the
  source is exact in binary or decimal, and no claim depends on rounding
  of irrational intermediates.
* The float square root used inside the drift model's z-score is passed
  in as an explicit function parameter `sqrtFn`; every theorem below holds
  for an arbitrary interpretation of it.
* Wall-clock time is a rational number of seconds; `now` is passed
  explicitly where the source reads the system clock.
* The module-level mutable state (latest vision/security signal, the
  drift model's windows) is passed and returned explicitly.
* Fallible code (the ledger append, the ledger poll) is modelled with
  `Except String`, the error being the stringified Python exception.
-/

/-- Environment-derived configuration constants of `main.py`
(`PROCESS_ANOMALY_THRESHOLD`, `NETWORK_ALERT_THRESHOLD`,
`EXPECTED_PACKET_RATE`, the two staleness horizons,
`USE_FALLBACK_DRIFT_MODEL`, `MODEL_VERSION`). -/
structure Config where
  use_fallback_drift_model : Bool
  process_anomaly_threshold : ℚ
  network_alert_threshold : ℚ
  expected_packet_rate : ℚ
  vision_signal_stale_seconds : ℚ
  security_signal_stale_seconds : ℚ
  model_version : String
deriving Repr, DecidableEq

/-- The default configuration: every environment variable unset
(no model artifact on disk, so `MODEL_VERSION` falls back to the
literal default). -/
def defaultConfig : Config :=
  { use_fallback_drift_model := true
    process_anomaly_threshold := 60
    network_alert_threshold := 55
    expected_packet_rate := 130
    vision_signal_stale_seconds := 8
    security_signal_stale_seconds := 8
    model_version := "hybrid-vision-signal-v2" }

/-- `TelemetryPayload` of `main.py`, with the pydantic field defaults. -/
structure TelemetryPayload where
  timestamp : Option String := none
  production_count : Int := 0
  production_rate : ℚ := 0
  reject_rate : ℚ := 0
  conveyor_running : Bool := false
  bottle_at_filler : Bool := false
  bottle_at_capper : Bool := false
  bottle_at_quality : Bool := false
  in_flight_bottles : Int := 0
  output_alarm_horn : Bool := false
  output_reject_gate : Bool := false
  network_packet_rate : ℚ := 0
  network_burst_ratio : ℚ := 0
  network_unauthorized_attempts : Nat := 0
  scan_time_ms : ℚ := 0
  vision_anomaly_score : Option ℚ := none
  vision_defect_flag : Option Bool := none
  vision_model_version : Option String := none
  vision_inference_ms : ℚ := 0
  security_flag : Option Bool := none
deriving Repr, DecidableEq

/-- `VisionSignalState` of `main.py`; `captured_at` is in seconds. -/
structure VisionSignalState where
  captured_at : ℚ
  anomaly_score : ℚ
  defect_flag : Bool
  model_version : String
  confidence : Option ℚ
  inference_ms : ℚ
  source : String
  image_path : Option String
deriving Repr, DecidableEq

/-- `SecuritySignalState` of `main.py`; `captured_at` is in seconds. -/
structure SecuritySignalState where
  captured_at : ℚ
  packet_rate : ℚ
  burst_ratio : ℚ
  unauthorized_attempts : Nat
  security_flag : Bool
  source : String
  sample_window_seconds : ℚ
deriving Repr, DecidableEq

/-- The two module-level latest-signal slots
(`LATEST_VISION_SIGNAL`, `LATEST_SECURITY_SIGNAL`). -/
structure SignalStore where
  latest_vision : Option VisionSignalState
  latest_security : Option SecuritySignalState
deriving Repr, DecidableEq

/-- A store with no signal of either kind. -/
def empty_store : SignalStore := ⟨none, none⟩

/-- `clamp(value, minimum, maximum)` of `main.py` with explicit bounds. -/
def clamp_between (minimum maximum value : ℚ) : ℚ :=
  max minimum (min maximum value)

/-- `clamp(value)` of `main.py` with its default bounds 0 and 100. -/
def clamp (value : ℚ) : ℚ := clamp_between 0 100 value

/-- `round(x, 2)` on the values the analyzer produces.  Python rounds
float ties to even; no value in this development sits on a tie, so
Mathlib's `round` is an exact model on everything evaluated here. -/
def round2 (q : ℚ) : ℚ := (round (q * 100) : ℤ) / 100

/-- `_signal_age_seconds` of `main.py`:
`max((_utc_now() - captured_at).total_seconds(), 0.0)`. -/
def signal_age_seconds (now captured_at : ℚ) : ℚ :=
  max (now - captured_at) 0

/-- `_get_fresh_vision_signal` of `main.py`: the stored signal, unless
absent or strictly older than the vision staleness horizon. -/
def get_fresh_vision_signal (cfg : Config) (store : SignalStore) (now : ℚ) :
    Option VisionSignalState :=
  match store.latest_vision with
  | none => none
  | some signal =>
      if signal_age_seconds now signal.captured_at > cfg.vision_signal_stale_seconds then
        none
      else
        some signal

/-- `_get_fresh_security_signal` of `main.py`. -/
def get_fresh_security_signal (cfg : Config) (store : SignalStore) (now : ℚ) :
    Option SecuritySignalState :=
  match store.latest_security with
  | none => none
  | some signal =>
      if signal_age_seconds now signal.captured_at > cfg.security_signal_stale_seconds then
        none
      else
        some signal

/-- The drift model's window capacity (`window_size` default of
`OnlineAnomalyModel.__init__`). -/
def window_size : Nat := 120

/-- `deque(maxlen=cap).append(value)`: past capacity the oldest element
is evicted from the left. -/
def deque_append (cap : Nat) (history : List ℚ) (value : ℚ) : List ℚ :=
  if history.length ≥ cap then history.drop 1 ++ [value] else history ++ [value]

/-- `OnlineAnomalyModel`'s state: the three rolling windows. -/
structure OnlineAnomalyModel where
  production_rate_history : List ℚ
  reject_rate_history : List ℚ
  inflight_history : List ℚ
deriving Repr, DecidableEq

/-- A freshly constructed model: all three windows empty. -/
def empty_model : OnlineAnomalyModel := ⟨[], [], []⟩

/-- `OnlineAnomalyModel._zscore`: zero below 20 samples, else
`abs((value - mean) / max(sqrt(variance), 1e-6))`. -/
def zscore (sqrtFn : ℚ → ℚ) (value : ℚ) (history : List ℚ) : ℚ :=
  if history.length < 20 then 0
  else
    let mean := history.sum / (history.length : ℚ)
    let variance := (history.map (fun item => (item - mean) ^ 2)).sum / (history.length : ℚ)
    let std := max (sqrtFn variance) (1 / 1000000)
    |(value - mean) / std|

/-- `OnlineAnomalyModel.evaluate`: z-scores from the pre-update windows,
tripwire reasons, the weighted clamped score, then the three appends.
Returns `((ml_score, reasons), updated model)`. -/
def OnlineAnomalyModel.evaluate (m : OnlineAnomalyModel) (sqrtFn : ℚ → ℚ)
    (payload : TelemetryPayload) : (ℚ × List String) × OnlineAnomalyModel :=
  let rate_z := zscore sqrtFn payload.production_rate m.production_rate_history
  let reject_z := zscore sqrtFn payload.reject_rate m.reject_rate_history
  let inflight_z := zscore sqrtFn (payload.in_flight_bottles : ℚ) m.inflight_history
  let reasons : List String :=
    (if rate_z > 26/10 then ["Fallback drift model detected production-rate baseline shift"] else []) ++
    (if reject_z > 24/10 then ["Fallback drift model detected reject-rate baseline shift"] else []) ++
    (if inflight_z > 28/10 then ["Fallback drift model detected in-flight accumulation shift"] else [])
  let ml_score := clamp ((rate_z * (35/100) + reject_z * (40/100) + inflight_z * (25/100)) * 22)
  ((ml_score, reasons),
   { production_rate_history := deque_append window_size m.production_rate_history payload.production_rate
     reject_rate_history := deque_append window_size m.reject_rate_history payload.reject_rate
     inflight_history := deque_append window_size m.inflight_history (payload.in_flight_bottles : ℚ) })

/-- Running `evaluate` over a payload sequence, threading the model
state; yields the `(score, reasons)` of each call in order. -/
def eval_run (sqrtFn : ℚ → ℚ) (m : OnlineAnomalyModel) :
    List TelemetryPayload → List (ℚ × List String)
  | [] => []
  | p :: ps =>
      let r := m.evaluate sqrtFn p
      r.1 :: eval_run sqrtFn r.2 ps

/-- `ProcessLaneResult` of `main.py`. -/
structure ProcessLaneResult where
  score : ℚ
  source : String
  reasons : List String
  component_label : String
  vision_anomaly_score : ℚ
  vision_defect_flag : Bool
  vision_inference_ms : ℚ
  model_version : String
deriving Repr, DecidableEq

/-- Python's `value or default` on a string: the default replaces both
`None` and the empty string. -/
def opt_str_or (value : Option String) (default : String) : String :=
  match value with
  | none => default
  | some s => if s = "" then default else s

/-- Python's `value or default` on a non-optional string. -/
def str_or (value default : String) : String :=
  if value = "" then default else value

/-- `_resolve_process_lane` of `main.py`.  The fallback branch calls
`FALLBACK_MODEL.evaluate`, so the (possibly updated) model is returned
alongside the lane result. -/
def resolve_process_lane (cfg : Config) (sqrtFn : ℚ → ℚ) (store : SignalStore)
    (now : ℚ) (model : OnlineAnomalyModel) (payload : TelemetryPayload) :
    ProcessLaneResult × OnlineAnomalyModel :=
  if payload.vision_anomaly_score.isSome || payload.vision_defect_flag.isSome then
    let resolved_score := clamp (match payload.vision_anomaly_score with
      | some s => s
      | none => if payload.vision_defect_flag.getD false then 100 else 0)
    let resolved_flag := match payload.vision_defect_flag with
      | some f => f
      | none => decide (resolved_score ≥ cfg.process_anomaly_threshold)
    let reasons := if resolved_flag then
        ["Vision signal in telemetry payload indicates a defect candidate"] else []
    ({ score := resolved_score
       source := "payload-vision-signal"
       reasons := reasons
       component_label := "Vision model signal"
       vision_anomaly_score := resolved_score
       vision_defect_flag := resolved_flag
       vision_inference_ms := payload.vision_inference_ms
       model_version := opt_str_or payload.vision_model_version cfg.model_version },
     model)
  else
    match get_fresh_vision_signal cfg store now with
    | some signal =>
        ({ score := clamp signal.anomaly_score
           source := "external-vision-signal"
           reasons := if signal.defect_flag then
               ["External vision lane detected an anomaly candidate"] else []
           component_label := "Vision model signal"
           vision_anomaly_score := clamp signal.anomaly_score
           vision_defect_flag := signal.defect_flag
           vision_inference_ms := signal.inference_ms
           model_version := str_or signal.model_version cfg.model_version },
         model)
    | none =>
        if cfg.use_fallback_drift_model then
          let ev := model.evaluate sqrtFn payload
          ({ score := ev.1.1
             source := "fallback-telemetry-drift"
             reasons := ev.1.2
             component_label := "Telemetry drift fallback model"
             vision_anomaly_score := ev.1.1
             vision_defect_flag := decide (ev.1.1 ≥ cfg.process_anomaly_threshold)
             vision_inference_ms := 0
             model_version := "hybrid-rule-zscore-v1.1" },
           ev.2)
        else
          ({ score := 0
             source := "no-vision-signal"
             reasons := []
             component_label := "Vision model signal"
             vision_anomaly_score := 0
             vision_defect_flag := false
             vision_inference_ms := 0
             model_version := cfg.model_version },
           model)

/-- The tuple `_resolve_network_inputs` returns. -/
structure NetworkInputs where
  packet_rate : ℚ
  burst_ratio : ℚ
  unauthorized_attempts : Nat
  security_flag : Bool
  source : String
deriving Repr, DecidableEq

/-- `_resolve_network_inputs` of `main.py`: payload values by default; a
fresh external security signal overrides the numeric fields and ORs the
flag. -/
def resolve_network_inputs (cfg : Config) (store : SignalStore) (now : ℚ)
    (payload : TelemetryPayload) : NetworkInputs :=
  let security_flag := payload.security_flag.getD false
  let source := if payload.security_flag.isSome then "payload-security-signal" else "telemetry"
  match get_fresh_security_signal cfg store now with
  | some external_signal =>
      { packet_rate := external_signal.packet_rate
        burst_ratio := external_signal.burst_ratio
        unauthorized_attempts := external_signal.unauthorized_attempts
        security_flag := security_flag || external_signal.security_flag
        source := "external-security-signal" }
  | none =>
      { packet_rate := payload.network_packet_rate
        burst_ratio := payload.network_burst_ratio
        unauthorized_attempts := payload.network_unauthorized_attempts
        security_flag := security_flag
        source := source }

/-- `AnalysisResult` of `main.py`; the component maps are modelled as
insertion-ordered association lists (no rule label collides with a lane
label, so appends are faithful to the dict writes). -/
structure AnalysisResult where
  process_score : ℚ
  network_score : ℚ
  process_anomaly : Bool
  network_alert : Bool
  model_confidence : ℚ
  reasons : List String
  process_components : List (String × ℚ)
  network_components : List (String × ℚ)
  risk_level : String
  recommended_action : String
  model_version : String
  vision_anomaly_score : ℚ
  vision_defect_flag : Bool
  vision_inference_ms : ℚ
  security_flag : Bool
  scan_time_ms : ℚ
  process_source : String
  network_source : String
deriving Repr, DecidableEq

/-- `analyze_payload` of `main.py`, threading the drift-model state
(mutated only through the fallback lane) explicitly. -/
def analyze_payload (cfg : Config) (sqrtFn : ℚ → ℚ) (store : SignalStore)
    (now : ℚ) (model : OnlineAnomalyModel) (payload : TelemetryPayload) :
    AnalysisResult × OnlineAnomalyModel :=
  let rule1 : ℚ := if payload.reject_rate > 12 then min 40 ((payload.reject_rate - 12) * 2) else 0
  let rule2 : ℚ := if payload.production_rate < 4 ∧ payload.conveyor_running then 22 else 0
  let rule3 : ℚ := if payload.in_flight_bottles > 6 then 25 else 0
  let rule4 : ℚ := if payload.output_alarm_horn then 12 else 0
  let rule5 : ℚ := if payload.output_reject_gate ∧ payload.reject_rate > 8 then 10 else 0
  let rule_process_score := rule1 + rule2 + rule3 + rule4 + rule5
  let rule_components : List (String × ℚ) :=
    (if payload.reject_rate > 12 then [("Reject rate deviation", round2 rule1)] else []) ++
    (if payload.production_rate < 4 ∧ payload.conveyor_running then
      [("Throughput collapse while conveyor running", rule2)] else []) ++
    (if payload.in_flight_bottles > 6 then [("In-flight bottle accumulation", rule3)] else []) ++
    (if payload.output_alarm_horn then [("PLC alarm horn active", rule4)] else []) ++
    (if payload.output_reject_gate ∧ payload.reject_rate > 8 then
      [("Reject gate with elevated rejects", rule5)] else [])
  let rule_reasons : List String :=
    (if payload.reject_rate > 12 then ["Reject rate above expected baseline"] else []) ++
    (if payload.production_rate < 4 ∧ payload.conveyor_running then
      ["Conveyor running with low throughput"] else []) ++
    (if payload.in_flight_bottles > 6 then ["Bottle accumulation indicates possible jam"] else []) ++
    (if payload.output_alarm_horn then ["PLC alarm horn is active"] else []) ++
    (if payload.output_reject_gate ∧ payload.reject_rate > 8 then
      ["Reject gate active with elevated rejects"] else [])
  let lane_pair := resolve_process_lane cfg sqrtFn store now model payload
  let process_lane := lane_pair.1
  let model2 := lane_pair.2
  let process_components := rule_components ++ [(process_lane.component_label, round2 process_lane.score)]
  let inputs := resolve_network_inputs cfg store now payload
  let packet_delta := |inputs.packet_rate - cfg.expected_packet_rate|
  let packet_rate_component := min 35 (packet_delta * (11/10))
  let burst_component : ℚ :=
    if inputs.burst_ratio > 72/100 then (inputs.burst_ratio - 72/100) * 90 else 0
  let unauthorized_component : ℚ :=
    if inputs.unauthorized_attempts > 0 then 35 + (inputs.unauthorized_attempts : ℚ) * 10 else 0
  let security_component : ℚ := if inputs.security_flag then 42 else 0
  let network_components : List (String × ℚ) :=
    [("Packet-rate deviation", round2 packet_rate_component)] ++
    (if inputs.burst_ratio > 72/100 then [("Burst traffic anomaly", round2 burst_component)] else []) ++
    (if inputs.unauthorized_attempts > 0 then
      [("Unauthorized write attempts", round2 unauthorized_component)] else []) ++
    (if inputs.security_flag then [("Security flag lane", security_component)] else [])
  let network_reasons : List String :=
    (if packet_delta > 18 then ["Network packet rate drift detected"] else []) ++
    (if inputs.burst_ratio > 72/100 then ["Burst traffic pattern suggests malformed polling"] else []) ++
    (if inputs.unauthorized_attempts > 0 then ["Unauthorized network write attempt detected"] else []) ++
    (if inputs.security_flag then
      ["Security monitor flagged suspicious control-network activity"] else [])
  let process_score := clamp (max rule_process_score process_lane.score)
  let network_score :=
    clamp (packet_rate_component + burst_component + unauthorized_component + security_component)
  let process_anomaly := decide (process_score ≥ cfg.process_anomaly_threshold)
  let network_alert := decide (network_score ≥ cfg.network_alert_threshold) || inputs.security_flag
  let model_confidence := clamp_between 5 100 (100 - max process_score network_score * (7/10))
  let max_risk := max process_score network_score
  let risk_level :=
    if max_risk ≥ 80 then "critical"
    else if max_risk ≥ 60 then "high"
    else if max_risk ≥ 35 then "medium"
    else "low"
  let recommended_action :=
    if network_alert && process_anomaly then
      "Trigger safety lockout, isolate control network, inspect line for jam/reject spikes"
    else if network_alert then
      "Segment PLC network, review suspicious traffic, and keep the line under close watch"
    else if process_anomaly then
      "Run quality/mechanical inspection and verify camera model threshold calibration"
    else
      "Continue baseline monitoring and keep collecting telemetry for drift tracking"
  let all_reasons := rule_reasons ++ process_lane.reasons ++ network_reasons
  let reasons := if all_reasons = [] then ["System within baseline profile"] else all_reasons
  ({ process_score := process_score
     network_score := network_score
     process_anomaly := process_anomaly
     network_alert := network_alert
     model_confidence := model_confidence
     reasons := reasons
     process_components := process_components
     network_components := network_components
     risk_level := risk_level
     recommended_action := recommended_action
     model_version := process_lane.model_version
     vision_anomaly_score := process_lane.vision_anomaly_score
     vision_defect_flag := process_lane.vision_defect_flag
     vision_inference_ms := process_lane.vision_inference_ms
     security_flag := inputs.security_flag
     scan_time_ms := payload.scan_time_ms
     process_source := process_lane.source
     network_source := inputs.source },
   model2)

/-- The reject-rate rule contribution: above 12, `(reject_rate - 12) * 2`
capped at 40. -/
def reject_rate_component (p : TelemetryPayload) : ℚ :=
  if p.reject_rate > 12 then min 40 ((p.reject_rate - 12) * 2) else 0

/-- The throughput-collapse rule contribution: flat 22 when the rate is
below 4 while the conveyor runs. -/
def throughput_component (p : TelemetryPayload) : ℚ :=
  if p.production_rate < 4 ∧ p.conveyor_running then 22 else 0

/-- The in-flight accumulation rule contribution: flat 25 above 6
in-flight bottles. -/
def accumulation_component (p : TelemetryPayload) : ℚ :=
  if p.in_flight_bottles > 6 then 25 else 0

/-- The alarm-horn rule contribution: flat 12 when the horn is on. -/
def alarm_component (p : TelemetryPayload) : ℚ :=
  if p.output_alarm_horn then 12 else 0

/-- The reject-gate rule contribution: flat 10 when the gate is active
with reject rate above 8. -/
def reject_gate_component (p : TelemetryPayload) : ℚ :=
  if p.output_reject_gate ∧ p.reject_rate > 8 then 10 else 0

/-- The total of the five fired rule contributions
(`rule_process_score` after all the gated `+=` statements). -/
def rule_total (p : TelemetryPayload) : ℚ :=
  reject_rate_component p + throughput_component p + accumulation_component p +
    alarm_component p + reject_gate_component p

/-- The JSON body the `POST /analyze` handler returns (scores rounded to
two decimals, the rest copied from the result). -/
structure AnalyzeResponse where
  process_anomaly : Bool
  network_alert : Bool
  process_score : ℚ
  network_score : ℚ
  model_confidence : ℚ
  process_components : List (String × ℚ)
  network_components : List (String × ℚ)
  risk_level : String
  recommended_action : String
  model_version : String
  vision_anomaly_score : ℚ
  vision_defect_flag : Bool
  vision_inference_ms : ℚ
  security_flag : Bool
  scan_time_ms : ℚ
  process_source : String
  network_source : String
  reasons : List String
deriving Repr, DecidableEq

/-- The response dict built at the end of the `analyze` handler. -/
def analyze_response (result : AnalysisResult) : AnalyzeResponse :=
  { process_anomaly := result.process_anomaly
    network_alert := result.network_alert
    process_score := round2 result.process_score
    network_score := round2 result.network_score
    model_confidence := round2 result.model_confidence
    process_components := result.process_components
    network_components := result.network_components
    risk_level := result.risk_level
    recommended_action := result.recommended_action
    model_version := result.model_version
    vision_anomaly_score := round2 result.vision_anomaly_score
    vision_defect_flag := result.vision_defect_flag
    vision_inference_ms := round2 result.vision_inference_ms
    security_flag := result.security_flag
    scan_time_ms := round2 result.scan_time_ms
    process_source := result.process_source
    network_source := result.network_source
    reasons := result.reasons }

/-- The `POST /analyze` handler body: compute the result, then call
`persist_analysis` — with no surrounding try/except, so an exception
raised by the ledger append propagates out of the handler (modelled by
`persist_outcome`), and only on success is the response body built and
returned. -/
def analyze_route (cfg : Config) (sqrtFn : ℚ → ℚ) (store : SignalStore)
    (now : ℚ) (model : OnlineAnomalyModel) (payload : TelemetryPayload)
    (persist_outcome : Except String Unit) : Except String AnalyzeResponse :=
  let result := (analyze_payload cfg sqrtFn store now model payload).1
  match persist_outcome with
  | Except.error e => Except.error e
  | Except.ok _ => Except.ok (analyze_response result)

/-- One ledger row as the stream generator sees it: its id and its JSON
serialization is supplied by the caller of the step function. -/
structure EventRecord where
  id : Nat
  serialized : String
deriving Repr, DecidableEq

/-- The chunk the generator yields per fetched event:
`f"data: {json.dumps(event)}\\n\\n"` — note the doubled backslash in the
source, a literal backslash-n, not a newline. -/
def sse_data_frame (serialized : String) : String :=
  "data: " ++ serialized ++ "\\n\\n"

/-- The chunk the generator yields on an empty poll:
`": keepalive\\n\\n"` (literal backslash-n characters). -/
def sse_keepalive_frame : String := ": keepalive\\n\\n"

/-- The chunk the generator yields when `_fetch_events` raises:
`f"event: error\\ndata: {error_payload}\\n\\n"` (literal backslash-n
characters). -/
def sse_error_frame (error_payload : String) : String :=
  "event: error" ++ "\\n" ++ "data: " ++ error_payload ++ "\\n\\n"

/-- The first chunk of every stream: `"retry: 1500\n\n"` — this one does
use real newlines in the source. -/
def sse_retry_frame : String := "retry: 1500\n\n"

/-- One iteration of the `events_stream` generator loop after the
disconnect check: the chunks yielded and the cursor after the iteration.
A fetch error yields one error frame and leaves the cursor unchanged
(the loop then sleeps and continues); an empty poll yields the keepalive
chunk; otherwise one data frame per event, the cursor advanced to the
max id seen. -/
def events_stream_step (dumps : EventRecord → String) (dumps_err : String → String)
    (fetched : Except String (List EventRecord)) (cursor_id : Nat) :
    List String × Nat :=
  match fetched with
  | Except.error e => ([sse_error_frame (dumps_err e)], cursor_id)
  | Except.ok [] => ([sse_keepalive_frame], cursor_id)
  | Except.ok events =>
      (events.map (fun ev => sse_data_frame (dumps ev)),
       events.foldl (fun c ev => max c ev.id) cursor_id)

/-- The generator loop over a finite schedule of poll ticks, each tick
carrying the disconnect-check outcome and the fetch outcome: the loop
breaks on disconnect and otherwise emits the iteration's chunks and
continues — also after an error tick. -/
def events_stream_session (dumps : EventRecord → String) (dumps_err : String → String) :
    List (Bool × Except String (List EventRecord)) → Nat → List String
  | [], _ => []
  | (disconnected, fetched) :: rest, cursor_id =>
      if disconnected then []
      else
        let step := events_stream_step dumps dumps_err fetched cursor_id
        step.1 ++ events_stream_session dumps dumps_err rest step.2

/-- The condition under which `_resolve_process_lane` reaches the
fallback drift lane: no payload-embedded vision field, no fresh external
vision signal, fallback enabled. -/
def fallback_lane_taken (cfg : Config) (store : SignalStore) (now : ℚ)
    (p : TelemetryPayload) : Bool :=
  !p.vision_anomaly_score.isSome && !p.vision_defect_flag.isSome &&
    (get_fresh_vision_signal cfg store now).isNone && cfg.use_fallback_drift_model

/-- The drift-model update `evaluate` performs: one bounded append per
window. -/
def push_windows (m : OnlineAnomalyModel) (p : TelemetryPayload) : OnlineAnomalyModel :=
  { production_rate_history := deque_append window_size m.production_rate_history p.production_rate
    reject_rate_history := deque_append window_size m.reject_rate_history p.reject_rate
    inflight_history := deque_append window_size m.inflight_history (p.in_flight_bottles : ℚ) }

/-- The spec's baseline scenario payload: `reject_rate=1`,
`production_rate=12`, `in_flight_bottles=3`, every other field at its
declared default. -/
def baseline_payload : TelemetryPayload :=
  { reject_rate := 1, production_rate := 12, in_flight_bottles := 3 }

/-- A payload carrying the embedded vision verdict of the precedence
scenario (`vision_anomaly_score=95`, `vision_defect_flag=true`). -/
def defect_payload : TelemetryPayload :=
  { vision_anomaly_score := some 95, vision_defect_flag := some true }

/-- A store holding a fresh external vision signal that conflicts with
`defect_payload` (score 0, no defect, captured at time 0). -/
def conflicting_vision_store : SignalStore :=
  ⟨some ⟨0, 0, false, "external-v1", none, 1, "camera-simulator", none⟩, none⟩

/-- A payload on which the rule total and the vision lane score are both
non-zero, separating max-combination from sum-combination. -/
def sum_demo_payload : TelemetryPayload :=
  { reject_rate := 20, vision_anomaly_score := some 95, vision_defect_flag := some true }

/-- C1: the claim says a failing ledger append still returns the
computed body; but the handler calls `persist_analysis` with no
try/except, so the raised error propagates and the computed body is
withheld — here at the baseline payload with the append failing. -/
theorem persist_error_withholds_result_cex :
    analyze_route defaultConfig (fun q => q) empty_store 0 empty_model baseline_payload
        (Except.error "ledger unavailable") = Except.error "ledger unavailable" ∧
    analyze_route defaultConfig (fun q => q) empty_store 0 empty_model baseline_payload
        (Except.error "ledger unavailable") ≠
      Except.ok (analyze_response
        (analyze_payload defaultConfig (fun q => q) empty_store 0 empty_model baseline_payload).1) :=
  ⟨rfl, fun h => Except.noConfusion h⟩

/-- C1 (amended): if `persist_analysis` raises, the `POST /analyze`
handler propagates that error and returns no body (the computed result
is not rolled back, but it is withheld from the caller); only when the
append succeeds is the computed result's body returned. -/
theorem persist_error_propagates (cfg : Config) (sqrtFn : ℚ → ℚ) (store : SignalStore)
    (now : ℚ) (model : OnlineAnomalyModel) (payload : TelemetryPayload) :
    (∀ e, analyze_route cfg sqrtFn store now model payload (Except.error e) = Except.error e) ∧
    analyze_route cfg sqrtFn store now model payload (Except.ok ()) =
      Except.ok (analyze_response (analyze_payload cfg sqrtFn store now model payload).1) :=
  ⟨fun _ => rfl, rfl⟩

/-- C2: the claim's scenario (reject_rate=1, production_rate=12,
in_flight_bottles=3, every other field at its declared default, no
stored signals) does yield `process_anomaly=false` and
`network_alert=false`, but `risk_level` is `"medium"`, not `"low"`: the
default `network_packet_rate=0` sits 130 below the expected packet rate,
contributing the capped 35 to the network score, and `max_risk=35`
reaches the medium band. -/
theorem baseline_scenario_risk_cex :
    (analyze_payload defaultConfig (fun q => q) empty_store 0 empty_model
        baseline_payload).1.process_anomaly = false ∧
    (analyze_payload defaultConfig (fun q => q) empty_store 0 empty_model
        baseline_payload).1.network_alert = false ∧
    (analyze_payload defaultConfig (fun q => q) empty_store 0 empty_model
        baseline_payload).1.risk_level = "medium" ∧
    (analyze_payload defaultConfig (fun q => q) empty_store 0 empty_model
        baseline_payload).1.risk_level ≠ "low" := by
  norm_num [analyze_payload, resolve_process_lane, resolve_network_inputs,
    get_fresh_vision_signal, get_fresh_security_signal, OnlineAnomalyModel.evaluate,
    zscore, clamp, clamp_between, baseline_payload, empty_store, empty_model,
    defaultConfig, round2, min_def, max_def, abs]
  decide

/-- C2 (amended): for the scenario payload with all other fields at
their declared defaults and no signals stored, `analyze_payload` returns
`process_anomaly=false`, `network_alert=false` and `risk_level="medium"`
(for any square-root interpretation and any resolution time, the drift
windows being empty). -/
theorem baseline_scenario_result (sqrtFn : ℚ → ℚ) (now : ℚ) :
    (analyze_payload defaultConfig sqrtFn empty_store now empty_model
        baseline_payload).1.process_anomaly = false ∧
    (analyze_payload defaultConfig sqrtFn empty_store now empty_model
        baseline_payload).1.network_alert = false ∧
    (analyze_payload defaultConfig sqrtFn empty_store now empty_model
        baseline_payload).1.risk_level = "medium" := by
  norm_num [analyze_payload, resolve_process_lane, resolve_network_inputs,
    get_fresh_vision_signal, get_fresh_security_signal, OnlineAnomalyModel.evaluate,
    zscore, clamp, clamp_between, baseline_payload, empty_store, empty_model,
    defaultConfig, round2, min_def, max_def, abs]

/-- C3: per loop iteration the generator does yield exactly one
keepalive chunk on an empty poll (starting with a colon), one data chunk
per fetched event, and one error chunk on a ledger failure with the loop
continuing — but none of these chunks is terminated by two newline
characters: the source writes `\\n\\n` inside its f-strings, a literal
backslash-n pair, so each chunk ends with the four characters
backslash, n, backslash, n (only the initial `retry:` chunk uses real
newlines). -/
theorem sse_frames_literal_backslash :
    events_stream_step (fun ev => ev.serialized) (fun e => e) (Except.ok []) 5 =
      ([sse_keepalive_frame], 5) ∧
    sse_keepalive_frame = ": keepalive" ++ "\\" ++ "n" ++ "\\" ++ "n" ∧
    sse_keepalive_frame ≠ ": keepalive" ++ "\n\n" ∧
    sse_error_frame "E" ≠ "event: error" ++ "\n" ++ "data: E" ++ "\n\n" ∧
    sse_data_frame "x" ≠ "data: x" ++ "\n\n" ∧
    sse_retry_frame = "retry: 1500" ++ "\n\n" ∧
    events_stream_session (fun ev => ev.serialized) (fun e => e)
        [(false, Except.error "db down"), (false, Except.ok [])] 0 =
      [sse_error_frame "db down", sse_keepalive_frame] := by
  decide

/-- Helper: a clamp of a max is at least any bound below the max's right
argument, provided that argument does not exceed 100. -/
lemma le_clamp_max (x y t : ℚ) (hty : t ≤ y) (hy : y ≤ 100) : t ≤ clamp (max x y) := by
  have h1 : min 100 y ≤ min 100 (max x y) := min_le_min le_rfl (le_max_right x y)
  have h2 : min 100 y = y := min_eq_right hy
  have h3 : min 100 (max x y) ≤ max 0 (min 100 (max x y)) := le_max_right _ _
  rw [clamp, clamp_between]
  linarith

/-- Helper: with both embedded vision fields present (score 95, flag
true) the lane resolver takes the payload branch, whatever the store or
drift state holds. -/
lemma lane_payload95 (cfg : Config) (sqrtFn : ℚ → ℚ) (store : SignalStore) (now : ℚ)
    (model : OnlineAnomalyModel) (p : TelemetryPayload)
    (hscore : p.vision_anomaly_score = some 95) (hflag : p.vision_defect_flag = some true) :
    (resolve_process_lane cfg sqrtFn store now model p).1.source = "payload-vision-signal" ∧
    (resolve_process_lane cfg sqrtFn store now model p).1.score = 95 := by
  constructor <;>
    norm_num [resolve_process_lane, hscore, hflag, clamp, clamp_between, min_def, max_def]

/-- C4: any payload embedding `vision_anomaly_score=95` and
`vision_defect_flag=true` resolves to the payload-vision lane
(`process_source="payload-vision-signal"`) and trips the process anomaly
under the default threshold, regardless of whatever external vision
signal is stored. -/
theorem payload_vision_precedence (sqrtFn : ℚ → ℚ) (store : SignalStore) (now : ℚ)
    (model : OnlineAnomalyModel) (p : TelemetryPayload)
    (hscore : p.vision_anomaly_score = some 95) (hflag : p.vision_defect_flag = some true) :
    (analyze_payload defaultConfig sqrtFn store now model p).1.process_source =
      "payload-vision-signal" ∧
    (analyze_payload defaultConfig sqrtFn store now model p).1.process_anomaly = true := by
  have hl := lane_payload95 defaultConfig sqrtFn store now model p hscore hflag
  constructor
  · simp only [analyze_payload]
    exact hl.1
  · simp only [analyze_payload, decide_eq_true_eq, ge_iff_le]
    rw [hl.2]
    exact le_clamp_max _ _ _ (by norm_num [defaultConfig]) (by norm_num)

/-- C4 witness: the precedence scenario at the concrete defect payload
with a conflicting fresh external vision signal (score 0, no defect)
stored. -/
theorem payload_vision_precedence_witness :
    (analyze_payload defaultConfig (fun q => q) conflicting_vision_store 0 empty_model
        defect_payload).1.process_source = "payload-vision-signal" ∧
    (analyze_payload defaultConfig (fun q => q) conflicting_vision_store 0 empty_model
        defect_payload).1.process_anomaly = true :=
  payload_vision_precedence (fun q => q) conflicting_vision_store 0 empty_model
    defect_payload rfl rfl

/-- C5: freshness at resolution time sits exactly at the horizon: a
stored signal whose age equals the kind's staleness horizon is returned
by get-fresh resolution, while an age strictly greater makes get-fresh
return none, for both the vision and the security lane. -/
theorem staleness_boundary (cfg : Config) (store : SignalStore) (now : ℚ) :
    (∀ sig, store.latest_vision = some sig →
      (signal_age_seconds now sig.captured_at = cfg.vision_signal_stale_seconds →
        get_fresh_vision_signal cfg store now = some sig) ∧
      (signal_age_seconds now sig.captured_at > cfg.vision_signal_stale_seconds →
        get_fresh_vision_signal cfg store now = none)) ∧
    (∀ sig, store.latest_security = some sig →
      (signal_age_seconds now sig.captured_at = cfg.security_signal_stale_seconds →
        get_fresh_security_signal cfg store now = some sig) ∧
      (signal_age_seconds now sig.captured_at > cfg.security_signal_stale_seconds →
        get_fresh_security_signal cfg store now = none)) := by
  constructor
  · intro sig hsig
    constructor
    · intro hage
      simp [get_fresh_vision_signal, hsig, hage]
    · intro hage
      simp [get_fresh_vision_signal, hsig, hage]
  · intro sig hsig
    constructor
    · intro hage
      simp [get_fresh_security_signal, hsig, hage]
    · intro hage
      simp [get_fresh_security_signal, hsig, hage]

/-- A vision signal stamped far in the future of the clock used below. -/
def far_future_vision_sig : VisionSignalState :=
  ⟨1000000, 50, false, "camera-v1", none, 2, "camera-simulator", none⟩

/-- A security signal stamped far in the future of the clock used below. -/
def far_future_security_sig : SecuritySignalState :=
  ⟨1000000, 130, 0, 0, false, "network-monitor", 1⟩

/-- C10: signal age is `max(now - captured_at, 0)`, so a stored signal
whose capture timestamp lies at or beyond the resolution clock has age
exactly 0 and is returned as fresh by both get-fresh checks, however far
in the future the timestamp lies (any nonnegative horizons). -/
theorem future_timestamp_fresh (cfg : Config) (vsig : VisionSignalState)
    (ssig : SecuritySignalState) (now : ℚ)
    (hv : 0 ≤ cfg.vision_signal_stale_seconds)
    (hs : 0 ≤ cfg.security_signal_stale_seconds)
    (hfv : now ≤ vsig.captured_at) (hfs : now ≤ ssig.captured_at) :
    signal_age_seconds now vsig.captured_at = 0 ∧
    signal_age_seconds now ssig.captured_at = 0 ∧
    get_fresh_vision_signal cfg ⟨some vsig, some ssig⟩ now = some vsig ∧
    get_fresh_security_signal cfg ⟨some vsig, some ssig⟩ now = some ssig := by
  have av : signal_age_seconds now vsig.captured_at = 0 := by
    rw [signal_age_seconds]
    exact max_eq_right (by linarith)
  have asec : signal_age_seconds now ssig.captured_at = 0 := by
    rw [signal_age_seconds]
    exact max_eq_right (by linarith)
  refine ⟨av, asec, ?_, ?_⟩
  · simp [get_fresh_vision_signal, av, not_lt.mpr hv]
  · simp [get_fresh_security_signal, asec, not_lt.mpr hs]

/-- C10 witness: at clock 0, signals stamped a million seconds ahead
have age 0 and both get-fresh checks return them under the default
horizons. -/
theorem future_timestamp_fresh_witness :
    signal_age_seconds 0 far_future_vision_sig.captured_at = 0 ∧
    signal_age_seconds 0 far_future_security_sig.captured_at = 0 ∧
    get_fresh_vision_signal defaultConfig
      ⟨some far_future_vision_sig, some far_future_security_sig⟩ 0 = some far_future_vision_sig ∧
    get_fresh_security_signal defaultConfig
      ⟨some far_future_vision_sig, some far_future_security_sig⟩ 0 = some far_future_security_sig :=
  future_timestamp_fresh defaultConfig far_future_vision_sig far_future_security_sig 0
    (by norm_num [defaultConfig]) (by norm_num [defaultConfig])
    (by norm_num [far_future_vision_sig]) (by norm_num [far_future_security_sig])

/-- Helper: the z-score of any value is 0 below 20 samples. -/
lemma zscore_cold (sqrtFn : ℚ → ℚ) (v : ℚ) (h : List ℚ) (hlen : h.length < 20) :
    zscore sqrtFn v h = 0 := by
  simp [zscore, hlen]

/-- Helper: with every window below 20 samples, `evaluate` scores 0 with
no reasons (whatever it then appends). -/
lemma evaluate_cold (sqrtFn : ℚ → ℚ) (m : OnlineAnomalyModel) (p : TelemetryPayload)
    (h1 : m.production_rate_history.length < 20)
    (h2 : m.reject_rate_history.length < 20)
    (h3 : m.inflight_history.length < 20) :
    (m.evaluate sqrtFn p).1 = (0, []) := by
  have hz1 := zscore_cold sqrtFn p.production_rate m.production_rate_history h1
  have hz2 := zscore_cold sqrtFn p.reject_rate m.reject_rate_history h2
  have hz3 := zscore_cold sqrtFn (p.in_flight_bottles : ℚ) m.inflight_history h3
  norm_num [OnlineAnomalyModel.evaluate, hz1, hz2, hz3, clamp, clamp_between,
    min_def, max_def]

/-- Helper: below capacity, each window grows by exactly one sample per
`evaluate` call. -/
lemma evaluate_grows (sqrtFn : ℚ → ℚ) (m : OnlineAnomalyModel) (p : TelemetryPayload)
    (h1 : m.production_rate_history.length < 120)
    (h2 : m.reject_rate_history.length < 120)
    (h3 : m.inflight_history.length < 120) :
    (m.evaluate sqrtFn p).2.production_rate_history.length =
      m.production_rate_history.length + 1 ∧
    (m.evaluate sqrtFn p).2.reject_rate_history.length =
      m.reject_rate_history.length + 1 ∧
    (m.evaluate sqrtFn p).2.inflight_history.length =
      m.inflight_history.length + 1 := by
  refine ⟨?_, ?_, ?_⟩ <;>
    simp [OnlineAnomalyModel.evaluate, deque_append, window_size,
      Nat.not_le.mpr h1, Nat.not_le.mpr h2, Nat.not_le.mpr h3]

/-- Helper: starting from any model whose windows stay under 20 samples
through position `i`, the i-th evaluation of a run yields `(0, [])`. -/
lemma eval_run_get (sqrtFn : ℚ → ℚ) (ps : List TelemetryPayload) :
    ∀ (m : OnlineAnomalyModel) (i : Nat),
      m.production_rate_history.length + i < 20 →
      m.reject_rate_history.length + i < 20 →
      m.inflight_history.length + i < 20 →
      i < ps.length →
      (eval_run sqrtFn m ps).get? i = some (0, []) := by
  induction ps with
  | nil =>
      intro m i _ _ _ hi
      simp at hi
  | cons p ps ih =>
      intro m i h1 h2 h3 hi
      cases i with
      | zero =>
          simp [eval_run, evaluate_cold sqrtFn m p (by omega) (by omega) (by omega)]
      | succ i =>
          have hg := evaluate_grows sqrtFn m p (by omega) (by omega) (by omega)
          simp only [eval_run, List.get?_cons_succ]
          exact ih (m.evaluate sqrtFn p).2 i (by rw [hg.1]; omega) (by rw [hg.2.1]; omega)
            (by rw [hg.2.2]; omega) (by simpa using hi)

/-- C6: each channel's z-score is 0 until its window holds at least 20
samples, and because each reading is scored against the window state
before it is appended (leave-one-out), a run started from the fresh
model returns score 0 with an empty reason list on each of its first 19
evaluations. -/
theorem drift_cold_start :
    (∀ (sqrtFn : ℚ → ℚ) (v : ℚ) (h : List ℚ), h.length < 20 → zscore sqrtFn v h = 0) ∧
    (∀ (sqrtFn : ℚ → ℚ) (ps : List TelemetryPayload) (i : Nat), i < 19 → i < ps.length →
      (eval_run sqrtFn empty_model ps).get? i = some (0, [])) := by
  constructor
  · intro sqrtFn v h hlen
    exact zscore_cold sqrtFn v h hlen
  · intro sqrtFn ps i h19 hlen
    refine eval_run_get sqrtFn ps empty_model i ?_ ?_ ?_ hlen <;>
      simp [empty_model] <;> omega

/-- C7: the final process score is the clamp of the maximum — not the
sum — of the total of the fired rule contributions and the resolved
vision-lane score; at a payload where both sub-scores fire, the
max-combination and the sum-combination visibly differ. -/
theorem process_score_max_combination :
    (∀ (cfg : Config) (sqrtFn : ℚ → ℚ) (store : SignalStore) (now : ℚ)
        (model : OnlineAnomalyModel) (p : TelemetryPayload),
      (analyze_payload cfg sqrtFn store now model p).1.process_score =
        clamp (max (rule_total p)
          ((resolve_process_lane cfg sqrtFn store now model p).1.score))) ∧
    (analyze_payload defaultConfig (fun q => q) empty_store 0 empty_model
        sum_demo_payload).1.process_score ≠
      clamp (rule_total sum_demo_payload +
        (resolve_process_lane defaultConfig (fun q => q) empty_store 0 empty_model
            sum_demo_payload).1.score) := by
  constructor
  · intro cfg sqrtFn store now model p
    rfl
  · norm_num [analyze_payload, resolve_process_lane, rule_total, reject_rate_component,
      throughput_component, accumulation_component, alarm_component, reject_gate_component,
      sum_demo_payload, clamp, clamp_between, min_def, max_def]

/-- C8: under the default thresholds, the process anomaly flag holds iff
the process score reaches 60, and the network alert holds iff the
network score reaches 55 or the resolved security flag is set — the
boolean flag forces the alert even below the score threshold. -/
theorem threshold_semantics (sqrtFn : ℚ → ℚ) (store : SignalStore) (now : ℚ)
    (model : OnlineAnomalyModel) (p : TelemetryPayload) :
    ((analyze_payload defaultConfig sqrtFn store now model p).1.process_anomaly = true ↔
      (analyze_payload defaultConfig sqrtFn store now model p).1.process_score ≥ 60) ∧
    ((analyze_payload defaultConfig sqrtFn store now model p).1.network_alert = true ↔
      ((analyze_payload defaultConfig sqrtFn store now model p).1.network_score ≥ 55 ∨
        (analyze_payload defaultConfig sqrtFn store now model p).1.security_flag = true)) := by
  constructor
  · simp only [analyze_payload, defaultConfig, decide_eq_true_eq]
  · simp only [analyze_payload, defaultConfig, Bool.or_eq_true, decide_eq_true_eq]

/-- C9: the drift model's three windows are mutated by `analyze_payload`
exactly when the fallback lane evaluates (no payload-embedded vision
field, no fresh external vision signal, fallback enabled) — one bounded
append per window — and are returned unchanged in every other case; a
bounded append grows a window by one sample up to the capacity 120,
past which the oldest sample is evicted. -/
theorem drift_mutation_frame :
    (∀ (cfg : Config) (sqrtFn : ℚ → ℚ) (store : SignalStore) (now : ℚ)
        (model : OnlineAnomalyModel) (p : TelemetryPayload),
      (analyze_payload cfg sqrtFn store now model p).2 =
        if fallback_lane_taken cfg store now p then push_windows model p else model) ∧
    (∀ (h : List ℚ) (x : ℚ), h.length ≤ 120 →
      (deque_append window_size h x).length = min (h.length + 1) 120 ∧
      (h.length = 120 → deque_append window_size h x = h.drop 1 ++ [x])) := by
  constructor
  · intro cfg sqrtFn store now model p
    show (resolve_process_lane cfg sqrtFn store now model p).2 = _
    rcases hv : p.vision_anomaly_score with _ | v
    · rcases hf : p.vision_defect_flag with _ | f
      · rcases hg : get_fresh_vision_signal cfg store now with _ | s
        · cases hu : cfg.use_fallback_drift_model
          · simp [resolve_process_lane, fallback_lane_taken, hv, hf, hg, hu]
          · simp [resolve_process_lane, fallback_lane_taken, hv, hf, hg, hu,
              OnlineAnomalyModel.evaluate, push_windows]
        · simp [resolve_process_lane, fallback_lane_taken, hv, hf, hg]
      · simp [resolve_process_lane, fallback_lane_taken, hv, hf]
    · simp [resolve_process_lane, fallback_lane_taken, hv]
  · intro h x hlen
    constructor
    · rw [deque_append, window_size]
      by_cases hc : h.length ≥ 120
      · rw [if_pos hc]
        simp only [List.length_append, List.length_drop, List.length_cons,
          List.length_nil]
        omega
      · rw [if_neg hc]
        simp only [List.length_append, List.length_cons, List.length_nil]
        omega
    · intro h120
      rw [deque_append, window_size, if_pos (by omega)]
